import Mathlib

/-!
Verification of `src/python/main.py` (financial-ai-app).

Shallow embedding: the external providers (yfinance, CoinGecko, Polygon.io,
the clock, environment variables) are modelled by a `World` record of
oracles; each Python function becomes a Lean function over the `World`.
JSON numbers are modelled by `ℚ`; Python `int(x)` truncation toward zero
is `pyInt`; Python `None` results (from `except` blocks) are `Option`.
-/

/-- Python `int(x)` on a number: truncation toward zero.
For a rational `q`, `Int.tdiv q.num q.den` is T-division, which matches. -/
def pyInt (q : ℚ) : ℤ := Int.tdiv q.num q.den

/-- `startsWithChars n h` : the char list `n` is a prefix of `h`. -/
def startsWithChars : List Char → List Char → Bool
  | [], _ => true
  | _ :: _, [] => false
  | a :: as, b :: bs => a = b && startsWithChars as bs

/-- `containsChars n h` : the char list `n` occurs contiguously inside `h`
(Python's `n in h` on strings). -/
def containsChars (needle : List Char) : List Char → Bool
  | [] => startsWithChars needle []
  | b :: bs => startsWithChars needle (b :: bs) || containsChars needle bs

/-- Python `s.lower()`: lowercase the characters (as a char list, so the
kernel can evaluate it; `String.toLower` maps the same `Char.toLower`). -/
def pyLower (s : String) : List Char := s.toList.map Char.toLower

/-- Python `s.upper()` as a string (built char-by-char so the kernel can
evaluate it; `String.toUpper` maps the same `Char.toUpper`). -/
def pyUpper (s : String) : String := String.mk (s.toList.map Char.toUpper)

/-- Python `needle in hay` for strings, on lowered char lists. -/
def pyIn (needle hay : List Char) : Bool := containsChars needle hay

/-- One entry of the mock securities catalog (`type` in the source is
`stype` here since `type` is a Lean keyword). -/
structure Security where
  symbol : String
  name : String
  exchange : String
  stype : String
deriving DecidableEq, Repr

/-- The fixed in-memory catalog from `search_equity_symbols`. -/
def mock_securities : List Security :=
  [⟨"AAPL", "Apple Inc.", "NASDAQ", "equity"⟩,
   ⟨"MSFT", "Microsoft Corporation", "NASDAQ", "equity"⟩,
   ⟨"GOOGL", "Alphabet Inc.", "NASDAQ", "equity"⟩,
   ⟨"AMZN", "Amazon.com Inc.", "NASDAQ", "equity"⟩,
   ⟨"TSLA", "Tesla Inc.", "NASDAQ", "equity"⟩,
   ⟨"SPY", "SPDR S&P 500 ETF Trust", "NYSE", "etf"⟩,
   ⟨"QQQ", "Invesco QQQ Trust", "NASDAQ", "etf"⟩,
   ⟨"VTI", "Vanguard Total Stock Market ETF", "NYSE", "etf"⟩,
   ⟨"IVV", "iShares Core S&P 500 ETF", "NYSE", "etf"⟩,
   ⟨"VOO", "Vanguard S&P 500 ETF", "NYSE", "etf"⟩]

/-- Whether a catalog entry matches the query, case-insensitively, against
symbol and name (`query_lower in sec["symbol"].lower() or ...`). -/
def secMatches (query_lower : List Char) (sec : Security) : Bool :=
  pyIn query_lower (pyLower sec.symbol) || pyIn query_lower (pyLower sec.name)

/-- `search_equity_symbols` from the source: filter the catalog by the
lowercased query, return the first `limit` matches (`filtered[:limit]`). -/
def search_equity_symbols (query : String) (limit : Nat := 10) : List Security :=
  (mock_securities.filter (secMatches (pyLower query))).take limit

/-- One raw bar of a Polygon.io aggregates response (`t`,`o`,`h`,`l`,`c`,`v`
JSON fields; JSON numbers modelled by `ℚ`). -/
structure PolyBar where
  t : ℚ
  o : ℚ
  hi : ℚ
  lo : ℚ
  c : ℚ
  v : ℚ
deriving DecidableEq, Repr

/-- A Polygon.io aggregates response body (`status` and `results`). -/
structure PolygonResp where
  status : String
  results : List PolyBar
deriving DecidableEq, Repr

/-- One row of a yfinance history DataFrame: the index timestamp in epoch
seconds (`index.timestamp()`), plus Open/High/Low/Close/Volume. -/
structure YRow where
  tsec : ℚ
  o : ℚ
  hi : ℚ
  lo : ℚ
  c : ℚ
  vol : ℚ
deriving DecidableEq, Repr

/-- A canonical output candle (`ts`,`open`,`high`,`low`,`close`,`volume`;
`open` is a Lean keyword, so the field is `opn`). -/
structure Candle where
  ts : ℚ
  opn : ℚ
  high : ℚ
  low : ℚ
  close : ℚ
  volume : ℚ
deriving DecidableEq, Repr

/-- The JSON object returned on intraday success. -/
structure IntradayResult where
  symbol : String
  interval : String
  candles : List Candle
  source : String
deriving DecidableEq, Repr

/-- A batch price record (output of `fetch_equity_price` /
`fetch_crypto_price`). -/
structure PricePoint where
  symbol : String
  assetType : String
  close : ℚ
  date : String
  source : String
deriving DecidableEq, Repr

/-- The JSON object returned by `fetch_price_summary`; `miniChart` entries
are `(ts-in-ms, close)` pairs. -/
structure PriceSummary where
  symbol : String
  name : String
  price : ℚ
  change24h : ℚ
  changePercent24h : ℚ
  marketCap : Option ℚ
  miniChart : List (ℤ × ℚ)
  asOf : String
  source : String
deriving DecidableEq, Repr

/-- The external world: environment variable, network responses, the clock.
`polygonResp s = none` models a raised/failed Polygon request (caught by the
inner `except`); `yfRaises s = true` models `yf.Ticker(s).history` raising
inside `fetch_intraday_data` (caught by the outer `except`, yielding `None`).
Empty history lists model both an empty DataFrame and any yfinance failure
inside the functions that only check `hist.empty`. -/
structure World where
  polygonKey : Option String
  polygonResp : String → Option PolygonResp
  yf1m : String → List YRow
  yf1d : String → List YRow
  yfRaises : String → Bool
  equityHist : String → List (String × ℚ)
  cryptoUsd : String → Option ℚ
  summary1d : String → List ℚ
  summary7d : String → List (ℚ × ℚ)
  longName : String → Option String
  marketCap : String → Option ℚ
  today : String
  now : String

/-- `fetch_equity_price`: last row of a `period="1d"` history, `None` when
empty (rows are `(date-string, close)`). -/
def fetch_equity_price (symbol : String) (w : World) : Option PricePoint :=
  match (w.equityHist symbol).getLast? with
  | none => none
  | some row => some ⟨symbol, "equity", row.2, row.1, "yfinance"⟩

/-- The `crypto_symbol_map` literal from `main` (internal ticker → CoinGecko
id), as an insertion-ordered association list like a Python dict. -/
def crypto_symbol_map : List (String × String) :=
  [("BTC-USD", "bitcoin"), ("ETH-USD", "ethereum"),
   ("ADA-USD", "cardano"), ("SOL-USD", "solana")]

/-- `reverse_crypto_map = {v: k for k, v in crypto_symbol_map.items()}`. -/
def reverse_crypto_map : List (String × String) :=
  crypto_symbol_map.map (fun p => (p.2, p.1))

/-- The symbol-resolution loop of `fetch_crypto_price`: first key `k` of
`symbol_map` whose value equals `coingecko_id`; if none (or the falsy key
`""`), synthesize `f"{coingecko_id.upper()}-USD"`. -/
def mapBackSymbol (symbol_map : List (String × String)) (coingecko_id : String) : String :=
  match symbol_map.find? (fun p => p.2 == coingecko_id) with
  | some p => if p.1 = "" then pyUpper coingecko_id ++ "-USD" else p.1
  | none => pyUpper coingecko_id ++ "-USD"

/-- `fetch_crypto_price`: CoinGecko USD price for the id, `None` on any
failure; the returned `symbol` comes from `mapBackSymbol`. -/
def fetch_crypto_price (coingecko_id : String) (symbol_map : List (String × String))
    (w : World) : Option PricePoint :=
  match w.cryptoUsd coingecko_id with
  | none => none
  | some price =>
      some ⟨mapBackSymbol symbol_map coingecko_id, "crypto", price, w.today, "coingecko"⟩

/-- Primary-path candle: the Polygon bar's fields are emitted verbatim
(no `float()`/`int()` coercion appears in the source on this path). -/
def candleOfBar (b : PolyBar) : Candle := ⟨b.t, b.o, b.hi, b.lo, b.c, b.v⟩

/-- Fallback-path candle: `ts = int(index.timestamp() * 1000)`, OHLC through
`float(...)` (identity on our number model), `volume = int(...)`. -/
def candleOfRow (r : YRow) : Candle :=
  ⟨((pyInt (r.tsec * 1000) : ℤ) : ℚ), r.o, r.hi, r.lo, r.c, ((pyInt r.vol : ℤ) : ℚ)⟩

/-- The history the fallback stage serves: 1-minute/1-day, retried as a
plain `period="1d"` history when the first is empty. -/
def fallbackHist (symbol : String) (w : World) : List YRow :=
  if w.yf1m symbol = [] then w.yf1d symbol else w.yf1m symbol

/-- The yfinance fallback stage of `fetch_intraday_data`; `none` when the
history call raises (outer `except`). -/
def yfFallback (symbol interval : String) (w : World) : Option IntradayResult :=
  if w.yfRaises symbol then none
  else some ⟨symbol, interval, (fallbackHist symbol w).map candleOfRow, "yfinance"⟩

/-- `fetch_intraday_data`: Polygon.io primary (only when `POLYGON_API_KEY`
is truthy and the response has `status == "OK"` and truthy `results`, with
the `[-100:]` suffix), else the yfinance fallback. `lookback` is accepted
and never read, as in the source. -/
def fetch_intraday_data (symbol : String) (interval : String) (lookback : String)
    (w : World) : Option IntradayResult :=
  if w.polygonKey.getD "" ≠ "" then
    match w.polygonResp symbol with
    | some resp =>
        if resp.status = "OK" ∧ resp.results ≠ [] then
          some ⟨symbol, interval,
            ((resp.results.drop (resp.results.length - 100)).map candleOfBar), "polygon"⟩
        else yfFallback symbol interval w
    | none => yfFallback symbol interval w
  else yfFallback symbol interval w

/-- Helper: `hist_7d['Close'].iloc[-2]`, read only when the length is ≥ 2
(rows are `(epoch-seconds, close)` pairs). -/
def secondToLastClose (h7 : List (ℚ × ℚ)) : ℚ := ((h7.get? (h7.length - 2)).getD (0, 0)).2

/-- The `change_24h` computed by `fetch_price_summary` (0 unless the 7-day
history has at least two points). -/
def summaryChange24h (current_price : ℚ) (h7 : List (ℚ × ℚ)) : ℚ :=
  if 2 ≤ h7.length then current_price - secondToLastClose h7 else 0

/-- The `change_percent_24h` computed by `fetch_price_summary` (guarded by
`len >= 2` and `prev_close > 0`). -/
def summaryChangePct (current_price : ℚ) (h7 : List (ℚ × ℚ)) : ℚ :=
  if 2 ≤ h7.length then
    (if 0 < secondToLastClose h7 then
      summaryChange24h current_price h7 / secondToLastClose h7 * 100
    else 0)
  else 0

/-- `fetch_price_summary`: current price from the `1d` history, 24h change
against the second-to-last close of the `7d` history, mini chart from the
`7d` rows. -/
def fetch_price_summary (symbol : String) (w : World) : Option PriceSummary :=
  match (w.summary1d symbol).getLast? with
  | none => none
  | some current_price =>
      if w.summary7d symbol = [] then none
      else
        some ⟨symbol, (w.longName symbol).getD symbol, current_price,
          summaryChange24h current_price (w.summary7d symbol),
          summaryChangePct current_price (w.summary7d symbol),
          w.marketCap symbol,
          (w.summary7d symbol).map (fun r => (pyInt (r.1 * 1000), r.2)), w.now, "yfinance"⟩

/-- A stdin request, with each JSON field optional (`input_data.get(...)`).
`rtype` is the `"type"` field; `limit` is assumed a non-negative integer. -/
structure Request where
  rtype : Option String := none
  query : Option String := none
  limit : Option Nat := none
  symbol : Option String := none
  interval : Option String := none
  lookback : Option String := none
  equities : Option (List String) := none
  cryptos : Option (List String) := none

/-- What `main` prints on stdout: one JSON value per run. -/
inductive Output where
  | searchOut : List Security → Output
  | summaryOut : PriceSummary → Output
  | intradayOut : IntradayResult → Output
  | batchOut : List PricePoint → Output
  | errOut : String → Output
deriving DecidableEq, Repr

/-- The batch branch of `main`: equities first, then cryptos, each in input
order, appending only non-`None` fetch results; cryptos are resolved
against `reverse_crypto_map` (the argument `main` actually passes). -/
def runBatch (equities cryptos : List String) (w : World) : List PricePoint :=
  (equities.filterMap (fun s => fetch_equity_price s w)) ++
    (cryptos.filterMap (fun c => fetch_crypto_price c reverse_crypto_map w))

/-- The dispatcher `main` (Python `None` in the intraday symbol slot prints
as the string `"None"`, hence `getD "None"`). -/
def mainRun (req : Request) (w : World) : Output :=
  if req.rtype = some "search" then
    Output.searchOut (search_equity_symbols (req.query.getD "") (req.limit.getD 10))
  else if req.rtype = some "price_summary" then
    match req.symbol with
    | none => Output.errOut "Symbol required for price summary"
    | some s =>
        if s = "" then Output.errOut "Symbol required for price summary"
        else
          match fetch_price_summary s w with
          | some r => Output.summaryOut r
          | none => Output.errOut ("Failed to fetch price summary for " ++ s)
  else if req.rtype = some "intraday" then
    let s := req.symbol.getD "None"
    match fetch_intraday_data s (req.interval.getD "1m") (req.lookback.getD "1d") w with
    | some r => Output.intradayOut r
    | none => Output.errOut ("Failed to fetch intraday data for " ++ s)
  else
    Output.batchOut (runBatch (req.equities.getD []) (req.cryptos.getD []) w)

/-- A world where every provider fails / returns nothing. -/
def wEmpty : World where
  polygonKey := none
  polygonResp := fun _ => none
  yf1m := fun _ => []
  yf1d := fun _ => []
  yfRaises := fun _ => false
  equityHist := fun _ => []
  cryptoUsd := fun _ => none
  summary1d := fun _ => []
  summary7d := fun _ => []
  longName := fun _ => none
  marketCap := fun _ => none
  today := "2026-10-12"
  now := "2026-10-12T00:00:00"

/-- A world with a two-point 7-day history (current 10, previous close 8). -/
def wSum : World :=
  { wEmpty with summary1d := fun _ => [10], summary7d := fun _ => [(0, 8), (86400, 9)] }

/-- A world whose 7-day history has exactly one point. -/
def wSum1 : World :=
  { wEmpty with summary1d := fun _ => [10], summary7d := fun _ => [(0, 8)] }

/-- 150 Polygon bars, to exercise the `[-100:]` truncation. -/
def bars150 : List PolyBar := (List.range 150).map (fun (n : ℕ) => ⟨(n : ℚ), 0, 0, 0, 0, 0⟩)

/-- A world where the primary provider answers with 150 bars. -/
def wPrim : World :=
  { wEmpty with polygonKey := some "k", polygonResp := fun _ => some ⟨"OK", bars150⟩ }

/-- A world where only the fallback 1-minute history answers, with two rows. -/
def wFall2 : World :=
  { wEmpty with yf1m := fun _ => [⟨0, 1, 2, 0, 1, 3⟩, ⟨60, 1, 2, 0, 1, 4⟩] }

/-- The rational `1/2`, given in reduced form so the kernel can evaluate
it (rational arithmetic does not kernel-reduce). -/
def halfQ : ℚ := ⟨1, 2, by norm_num, by norm_num⟩

/-- A world where the primary provider returns a bar with fractional volume. -/
def wHalf : World :=
  { wEmpty with
    polygonKey := some "k"
    polygonResp := fun _ => some ⟨"OK", [⟨1700000000000, 1, 2, 0, 1, halfQ⟩]⟩ }

/-! ### Helper lemmas -/

lemma fetch_equity_price_symbol {s : String} {w : World} {p : PricePoint}
    (h : fetch_equity_price s w = some p) : p.symbol = s := by
  unfold fetch_equity_price at h
  rcases hg : (w.equityHist s).getLast? with _ | row
  · rw [hg] at h; cases h
  · rw [hg] at h; cases h; rfl

lemma fetch_crypto_price_symbol {c : String} {m : List (String × String)} {w : World}
    {p : PricePoint} (h : fetch_crypto_price c m w = some p) :
    p.symbol = mapBackSymbol m c := by
  unfold fetch_crypto_price at h
  rcases hg : w.cryptoUsd c with _ | q
  · rw [hg] at h; cases h
  · rw [hg] at h; cases h; rfl

lemma yfFallback_some {s i : String} {w : World} {r : IntradayResult}
    (h : yfFallback s i w = some r) :
    w.yfRaises s = false
      ∧ r = ⟨s, i, (fallbackHist s w).map candleOfRow, "yfinance"⟩ := by
  unfold yfFallback at h
  split at h
  · cases h
  · rename_i hr
    cases h
    refine ⟨?_, rfl⟩
    cases hb : w.yfRaises s
    · rfl
    · exact absurd hb hr

/-- Every successful intraday fetch came from exactly one of the two
provider stages, with the corresponding result shape. -/
lemma fetch_intraday_cases {s i l : String} {w : World} {r : IntradayResult}
    (h : fetch_intraday_data s i l w = some r) :
    (∃ resp, w.polygonKey.getD "" ≠ "" ∧ w.polygonResp s = some resp
        ∧ resp.status = "OK" ∧ resp.results ≠ []
        ∧ r = ⟨s, i, (resp.results.drop (resp.results.length - 100)).map candleOfBar,
            "polygon"⟩)
    ∨ (w.yfRaises s = false
        ∧ r = ⟨s, i, (fallbackHist s w).map candleOfRow, "yfinance"⟩) := by
  unfold fetch_intraday_data at h
  split at h
  · rename_i hk
    split at h
    · rename_i resp hq
      split at h
      · rename_i hok
        injection h with h
        exact Or.inl ⟨resp, hk, hq, hok.1, hok.2, h.symm⟩
      · exact Or.inr (yfFallback_some h)
    · exact Or.inr (yfFallback_some h)
  · exact Or.inr (yfFallback_some h)

/-- On an intraday request, `main` prints the fetch result or the failure
message. -/
lemma mainRun_intraday {req : Request} {w : World} (h1 : req.rtype = some "intraday") :
    mainRun req w =
      (match fetch_intraday_data (req.symbol.getD "None") (req.interval.getD "1m")
          (req.lookback.getD "1d") w with
        | some r => Output.intradayOut r
        | none => Output.errOut ("Failed to fetch intraday data for " ++ req.symbol.getD "None")) := by
  unfold mainRun
  rw [h1, if_neg (by decide), if_neg (by decide), if_pos (by decide)]

/-- Without a truthy `POLYGON_API_KEY`, the intraday fetch is exactly the
yfinance fallback. -/
lemma fetch_intraday_nokey {s i l : String} {w : World} (hk : w.polygonKey.getD "" = "") :
    fetch_intraday_data s i l w = yfFallback s i w := by
  unfold fetch_intraday_data
  rw [if_neg (by simp [hk])]

/-- A successful primary stage produces the truncated Polygon candles. -/
lemma fetch_intraday_primary {s i l : String} {w : World} {resp : PolygonResp}
    (hk : w.polygonKey.getD "" ≠ "") (hq : w.polygonResp s = some resp)
    (hok : resp.status = "OK") (hne : resp.results ≠ []) :
    fetch_intraday_data s i l w
      = some ⟨s, i, (resp.results.drop (resp.results.length - 100)).map candleOfBar,
          "polygon"⟩ := by
  unfold fetch_intraday_data
  rw [if_pos hk, hq]
  show (if resp.status = "OK" ∧ resp.results ≠ []
      then some (⟨s, i, (resp.results.drop (resp.results.length - 100)).map candleOfBar,
        "polygon"⟩ : IntradayResult)
      else yfFallback s i w) = _
  rw [if_pos ⟨hok, hne⟩]

/-! ### Claims -/

/-- Claim C1 (code bug): the Symbol Mapper round-trip fails in the code.
`main` passes `reverse_crypto_map` (id → ticker) to `fetch_crypto_price`,
whose loop looks for a key whose *value* equals the id (it expects the
ticker → id map `crypto_symbol_map`), so no identifier ever matches and
`"bitcoin"` yields `"BITCOIN-USD"`; with the forward map the same loop
yields `"BTC-USD"` as the claim states. -/
theorem C1_crypto_symbol_code_eval :
    (fetch_crypto_price "bitcoin" reverse_crypto_map
        { wEmpty with cryptoUsd := fun _ => some 50000 }).map PricePoint.symbol
      = some "BITCOIN-USD"
    ∧ (fetch_crypto_price "bitcoin" crypto_symbol_map
        { wEmpty with cryptoUsd := fun _ => some 50000 }).map PricePoint.symbol
      = some "BTC-USD" := by decide

/-- Claim C7, counterexample: the query `"ETF"` does not return an empty
sequence — it matches the four catalog entries whose names contain
`"ETF"`. -/
theorem C7_counterexample :
    (search_equity_symbols "ETF").map Security.symbol = ["SPY", "VTI", "IVV", "VOO"] := by
  decide

/-- Claim C7 (amended): symbol search is a case-insensitive substring match
against the catalog's symbol and name fields, returns at most `limit`
matches in catalog order; `"AAPL"` returns exactly the `AAPL` entry,
`"ETF"` returns the four ETF-named entries, and a multi-match query with
`limit = 1` returns exactly one entry. -/
theorem C7_search_semantics (query : String) (limit : Nat) :
    (search_equity_symbols query limit).length ≤ limit
    ∧ (search_equity_symbols query limit).Sublist mock_securities
    ∧ (∀ sec ∈ search_equity_symbols query limit, secMatches (pyLower query) sec = true)
    ∧ (search_equity_symbols "AAPL").map Security.symbol = ["AAPL"]
    ∧ (search_equity_symbols "ETF").map Security.symbol = ["SPY", "VTI", "IVV", "VOO"]
    ∧ (search_equity_symbols "S&P" 1).length = 1 := by
  refine ⟨List.length_take_le _ _,
    ((mock_securities.filter (secMatches (pyLower query))).take_sublist limit).trans
      (List.filter_sublist _),
    ?_, by decide, by decide, by decide⟩
  intro sec hsec
  exact List.of_mem_filter (List.mem_of_mem_take hsec)

/-- Claim C7 witness: the general part of `C7_search_semantics` at a
concrete query and limit. -/
theorem C7_witness : (search_equity_symbols "VOO" 10).length ≤ 10 :=
  (C7_search_semantics "VOO" 10).1

/-- Claim C9: the `lookback` request field never influences the output;
both provider queries ignore it. -/
theorem C9_lookback_irrelevant (req : Request) (w : World) (la lb : Option String) :
    mainRun { req with lookback := la } w = mainRun { req with lookback := lb } w := rfl

/-- Claim C10: a present but unrecognized `type` falls through to batch
mode (a `PricePoint` sequence, empty when no `equities`/`cryptos` are
given), never an unknown-type error. -/
theorem C10_unknown_type_batch (req : Request) (w : World) (t : String)
    (h1 : req.rtype = some t) (h2 : t ≠ "search") (h3 : t ≠ "price_summary")
    (h4 : t ≠ "intraday") :
    mainRun req w = Output.batchOut (runBatch (req.equities.getD []) (req.cryptos.getD []) w)
    ∧ (req.equities = none → req.cryptos = none → mainRun req w = Output.batchOut []) := by
  have e1 : ¬(req.rtype = some "search") := by rw [h1]; simpa using h2
  have e2 : ¬(req.rtype = some "price_summary") := by rw [h1]; simpa using h3
  have e3 : ¬(req.rtype = some "intraday") := by rw [h1]; simpa using h4
  constructor
  · unfold mainRun
    rw [if_neg e1, if_neg e2, if_neg e3]
  · intro he hc
    unfold mainRun
    rw [if_neg e1, if_neg e2, if_neg e3, he, hc]
    rfl

/-- Claim C10 witness: a `type = "candles"` request with no lists against
the empty world. -/
theorem C10_witness :
    mainRun { rtype := some "candles" } wEmpty = Output.batchOut [] :=
  (C10_unknown_type_batch { rtype := some "candles" } wEmpty "candles" rfl
    (by decide) (by decide) (by decide)).2 rfl rfl

/-- Claim C2, counterexample: with no primary credential and both fallback
queries empty, the output is an `IntradayResult` with an empty candle list,
not the claimed error object. -/
theorem C2_counterexample :
    mainRun { rtype := some "intraday", symbol := some "MSFT" } wEmpty
      = Output.intradayOut ⟨"MSFT", "1m", [], "yfinance"⟩
    ∧ ¬(mainRun { rtype := some "intraday", symbol := some "MSFT" } wEmpty
        = Output.errOut "Failed to fetch intraday data for MSFT") := by decide

/-- Claim C2 (amended): with no primary credential, the intraday error
object is printed exactly when the fallback history call raises (the fetch
returns `None`); when both fallback queries merely return empty series the
output is a successful `IntradayResult` with an empty candle list. -/
theorem C2_error_iff_exception (req : Request) (w : World) (s : String)
    (h1 : req.rtype = some "intraday") (h2 : req.symbol = some s)
    (hk : w.polygonKey.getD "" = "") (he1 : w.yf1m s = []) (he2 : w.yf1d s = []) :
    (w.yfRaises s = false →
      mainRun req w = Output.intradayOut ⟨s, req.interval.getD "1m", [], "yfinance"⟩)
    ∧ (w.yfRaises s = true →
      mainRun req w = Output.errOut ("Failed to fetch intraday data for " ++ s)) := by
  have hm := mainRun_intraday (w := w) h1
  rw [h2] at hm
  simp only [Option.getD_some] at hm
  rw [fetch_intraday_nokey hk] at hm
  constructor
  · intro hrf
    rw [hm]
    unfold yfFallback
    rw [if_neg (by simp [hrf])]
    simp [fallbackHist, he1, he2]
  · intro hrt
    rw [hm]
    unfold yfFallback
    rw [if_pos hrt]

/-- Claim C2 witness: both branches of `C2_error_iff_exception` at concrete
worlds (fallback empty without exception; fallback raising). -/
theorem C2_witness :
    mainRun { rtype := some "intraday", symbol := some "AAPL" } wEmpty
      = Output.intradayOut ⟨"AAPL", "1m", [], "yfinance"⟩
    ∧ mainRun { rtype := some "intraday", symbol := some "AAPL" }
        { wEmpty with yfRaises := fun _ => true }
      = Output.errOut ("Failed to fetch intraday data for " ++ "AAPL") :=
  ⟨(C2_error_iff_exception { rtype := some "intraday", symbol := some "AAPL" }
      wEmpty "AAPL" rfl rfl rfl rfl rfl).1 rfl,
   (C2_error_iff_exception { rtype := some "intraday", symbol := some "AAPL" }
      { wEmpty with yfRaises := fun _ => true } "AAPL" rfl rfl rfl rfl rfl).2 rfl⟩

/-- Claim C3: with ≥ 2 points in the 7-day history, `change24h` is the
current price minus the second-to-last close, and `changePercent24h` is
`change24h / prev * 100` when `prev > 0` and `0` otherwise; with exactly
one point both are exactly `0`. -/
theorem C3_change_computation (s : String) (w : World) (r : PriceSummary)
    (h : fetch_price_summary s w = some r) :
    (2 ≤ (w.summary7d s).length →
      r.change24h = r.price - secondToLastClose (w.summary7d s)
      ∧ (0 < secondToLastClose (w.summary7d s) →
          r.changePercent24h = r.change24h / secondToLastClose (w.summary7d s) * 100)
      ∧ (¬0 < secondToLastClose (w.summary7d s) → r.changePercent24h = 0))
    ∧ ((w.summary7d s).length = 1 → r.change24h = 0 ∧ r.changePercent24h = 0) := by
  unfold fetch_price_summary at h
  split at h
  · cases h
  · rename_i current hcur
    split at h
    · cases h
    · rename_i hne
      injection h with h
      subst h
      constructor
      · intro hlen
        refine ⟨by simp [summaryChange24h, if_pos hlen], ?_, ?_⟩
        · intro hpos
          simp [summaryChangePct, summaryChange24h, if_pos hlen, if_pos hpos]
        · intro hneg
          simp [summaryChangePct, if_pos hlen, if_neg hneg]
      · intro hlen1
        have hlt : ¬2 ≤ (w.summary7d s).length := by omega
        simp [summaryChange24h, summaryChangePct, if_neg hlt]

/-- Claim C3 witness: the two-point world gives `change24h = 10 - 8 = 2`
and `changePercent24h = 25`; the one-point world gives `0` and `0`. -/
theorem C3_witness :
    (fetch_price_summary "AAPL" wSum).map PriceSummary.change24h = some 2
    ∧ (fetch_price_summary "AAPL" wSum).map PriceSummary.changePercent24h = some 25
    ∧ (fetch_price_summary "AAPL" wSum1).map PriceSummary.change24h = some 0
    ∧ (fetch_price_summary "AAPL" wSum1).map PriceSummary.changePercent24h = some 0 := by
  have hf : fetch_price_summary "AAPL" wSum
      = some ⟨"AAPL", "AAPL", 10, summaryChange24h 10 [(0, 8), (86400, 9)],
          summaryChangePct 10 [(0, 8), (86400, 9)], none,
          [(0, 8), (86400, 9)].map (fun r => (pyInt (r.1 * 1000), r.2)),
          "2026-10-12T00:00:00", "yfinance"⟩ := rfl
  have hf1 : fetch_price_summary "AAPL" wSum1
      = some ⟨"AAPL", "AAPL", 10, summaryChange24h 10 [(0, 8)],
          summaryChangePct 10 [(0, 8)], none,
          [((0 : ℚ), (8 : ℚ))].map (fun r => (pyInt (r.1 * 1000), r.2)),
          "2026-10-12T00:00:00", "yfinance"⟩ := rfl
  have hprev : secondToLastClose (wSum.summary7d "AAPL") = 8 := rfl
  obtain ⟨hc, hp, -⟩ := (C3_change_computation "AAPL" wSum _ hf).1 (by norm_num [wSum])
  obtain ⟨hc0, hp0⟩ := (C3_change_computation "AAPL" wSum1 _ hf1).2 (by norm_num [wSum1])
  refine ⟨?_, ?_, ?_, ?_⟩
  · rw [hf, Option.map_some', hc, hprev]
    norm_num
  · rw [hf, Option.map_some', hp (by rw [hprev]; norm_num), hc, hprev]
    norm_num
  · rw [hf1, Option.map_some', hc0]
  · rw [hf1, Option.map_some', hp0]

/-- Claim C4: a successful primary stage keeps exactly the `[-100:]` suffix
of the provider's bars (so at most 100, and exactly the 100 most recent
when more are supplied); a fallback result carries every bar of the served
history, untruncated. -/
theorem C4_truncation_policy (s i l : String) (w : World) :
    (∀ resp : PolygonResp, w.polygonKey.getD "" ≠ "" → w.polygonResp s = some resp →
      resp.status = "OK" → resp.results ≠ [] →
      ∃ r, fetch_intraday_data s i l w = some r
        ∧ r.candles = (resp.results.drop (resp.results.length - 100)).map candleOfBar
        ∧ r.candles.length = min resp.results.length 100
        ∧ r.candles.length ≤ 100)
    ∧ (∀ r, fetch_intraday_data s i l w = some r → r.source = "yfinance" →
        r.candles = (fallbackHist s w).map candleOfRow
        ∧ r.candles.length = (fallbackHist s w).length) := by
  constructor
  · intro resp hk hq hok hne
    refine ⟨_, fetch_intraday_primary hk hq hok hne, rfl, ?_, ?_⟩ <;>
      · simp only [List.length_map, List.length_drop]
        omega
  · intro r hr hsrc
    rcases fetch_intraday_cases hr with ⟨resp, _, _, _, _, hre⟩ | ⟨_, hre⟩
    · subst hre
      simp at hsrc
    · subst hre
      exact ⟨rfl, by simp⟩

/-- Claim C4 witness: 150 primary bars are truncated to 100; a two-row
fallback history is emitted whole. -/
theorem C4_witness :
    (fetch_intraday_data "AAPL" "1m" "1d" wPrim).map (fun r => r.candles.length) = some 100
    ∧ (fetch_intraday_data "AAPL" "1m" "1d" wFall2).map (fun r => r.candles.length)
      = some 2 := by
  have hb : (⟨"OK", bars150⟩ : PolygonResp).results.length = 150 := by
    show bars150.length = 150
    unfold bars150
    rw [List.length_map, List.length_range]
  constructor
  · obtain ⟨r, hr, -, hmin, -⟩ := (C4_truncation_policy "AAPL" "1m" "1d" wPrim).1
      ⟨"OK", bars150⟩ (by decide) rfl rfl
      (by intro hcon; rw [hcon] at hb; exact absurd hb (by decide))
    rw [hr, Option.map_some', hmin, hb]
    refine congrArg some ?_
    omega
  · have hf : fetch_intraday_data "AAPL" "1m" "1d" wFall2
        = some ⟨"AAPL", "1m", (fallbackHist "AAPL" wFall2).map candleOfRow, "yfinance"⟩ := rfl
    obtain ⟨-, hlen⟩ := (C4_truncation_policy "AAPL" "1m" "1d" wFall2).2 _ hf rfl
    rw [hf, Option.map_some', hlen]
    rfl

/-- Claim C5, counterexample: on the primary path a fractional provider
volume is passed through verbatim (`1/2`, denominator `2`, not an integer
count; the `int(...)` coercion, had it been applied, would give `0`). -/
theorem C5_counterexample :
    (fetch_intraday_data "AAPL" "1m" "1d" wHalf).map (fun r => r.candles.map Candle.volume)
      = some [halfQ]
    ∧ halfQ.den = 2
    ∧ (pyInt halfQ : ℚ) = 0 := by decide

/-- Claim C5 (amended): only the fallback path normalizes — `ts` is the
truncated epoch-millisecond integer and `volume` an integer, with input
order preserved; the primary path emits the Polygon bars' fields verbatim
(no coercion), also preserving order. -/
theorem C5_normalization (s i l : String) (w : World) (r : IntradayResult)
    (h : fetch_intraday_data s i l w = some r) :
    (r.source = "yfinance" →
      r.candles = (fallbackHist s w).map candleOfRow
      ∧ (∀ c ∈ r.candles, (∃ z : ℤ, c.ts = (z : ℚ)) ∧ (∃ z : ℤ, c.volume = (z : ℚ))))
    ∧ (r.source = "polygon" →
      ∃ resp, w.polygonResp s = some resp
        ∧ r.candles = (resp.results.drop (resp.results.length - 100)).map candleOfBar) := by
  rcases fetch_intraday_cases h with ⟨resp, _, hq, _, _, hre⟩ | ⟨_, hre⟩
  · subst hre
    constructor
    · intro hsrc
      simp at hsrc
    · intro _
      exact ⟨resp, hq, rfl⟩
  · subst hre
    constructor
    · intro _
      refine ⟨rfl, ?_⟩
      intro c hc
      rw [List.mem_map] at hc
      obtain ⟨row, -, hrow⟩ := hc
      subst hrow
      exact ⟨⟨pyInt (row.tsec * 1000), rfl⟩, ⟨pyInt row.vol, rfl⟩⟩
    · intro hsrc
      simp at hsrc

/-- Claim C5 witness: the fallback conjunct of `C5_normalization` at a
concrete two-row history. -/
theorem C5_witness :
    (fetch_intraday_data "AAPL" "1m" "1d" wFall2).map IntradayResult.candles
      = some ((fallbackHist "AAPL" wFall2).map candleOfRow) := by
  have hf : fetch_intraday_data "AAPL" "1m" "1d" wFall2
      = some ⟨"AAPL", "1m", (fallbackHist "AAPL" wFall2).map candleOfRow, "yfinance"⟩ := rfl
  have h := (C5_normalization "AAPL" "1m" "1d" wFall2 _ hf).1 rfl
  rw [hf, Option.map_some', h.1]

/-- Claim C6, counterexample: a successful crypto item's `symbol` is the
synthesized ticker `"BITCOIN-USD"`, which is not drawn from the input
lists. -/
theorem C6_counterexample :
    mainRun { cryptos := some ["bitcoin"] } { wEmpty with cryptoUsd := fun _ => some 1 }
      = Output.batchOut [⟨"BITCOIN-USD", "crypto", 1, "2026-10-12", "coingecko"⟩]
    ∧ ¬("BITCOIN-USD" ∈ (["bitcoin"] : List String)) := by decide

/-- Claim C6 (amended): the batch output has length at most
`len(equities) + len(cryptos)`, lists all equity results before all crypto
results with per-list input order preserved (failures silently omitted);
each equity item's `symbol` is its input symbol, while each crypto item's
`symbol` is the mapper's resolution of some input id (not the id itself). -/
theorem C6_batch_shape (equities cryptos : List String) (w : World) :
    mainRun { equities := some equities, cryptos := some cryptos } w
      = Output.batchOut (runBatch equities cryptos w)
    ∧ (runBatch equities cryptos w).length ≤ equities.length + cryptos.length
    ∧ runBatch equities cryptos w
        = equities.filterMap (fun s => fetch_equity_price s w)
          ++ cryptos.filterMap (fun c => fetch_crypto_price c reverse_crypto_map w)
    ∧ (∀ p ∈ equities.filterMap (fun s => fetch_equity_price s w), p.symbol ∈ equities)
    ∧ (∀ p ∈ cryptos.filterMap (fun c => fetch_crypto_price c reverse_crypto_map w),
        ∃ c ∈ cryptos, p.symbol = mapBackSymbol reverse_crypto_map c) := by
  refine ⟨rfl, ?_, rfl, ?_, ?_⟩
  · unfold runBatch
    rw [List.length_append]
    exact Nat.add_le_add (List.length_filterMap_le _ _) (List.length_filterMap_le _ _)
  · intro p hp
    rw [List.mem_filterMap] at hp
    obtain ⟨a, ha, hfa⟩ := hp
    rw [fetch_equity_price_symbol hfa]
    exact ha
  · intro p hp
    rw [List.mem_filterMap] at hp
    obtain ⟨c, hc, hfc⟩ := hp
    exact ⟨c, hc, fetch_crypto_price_symbol hfc⟩

/-- Claim C6 witness: the length bound of `C6_batch_shape` at a concrete
batch request. -/
theorem C6_witness :
    (runBatch ["AAPL"] ["bitcoin"]
        { wEmpty with
          equityHist := fun _ => [("2026-10-10", 5)]
          cryptoUsd := fun _ => some 2 }).length ≤ 1 + 1 :=
  (C6_batch_shape ["AAPL"] ["bitcoin"]
    { wEmpty with
      equityHist := fun _ => [("2026-10-10", 5)]
      cryptoUsd := fun _ => some 2 }).2.1

/-- Claim C8: every successful intraday result reports exactly the
requested interval (default `"1m"`), whichever provider answered. -/
theorem C8_interval_echo (req : Request) (w : World) (r : IntradayResult)
    (h1 : req.rtype = some "intraday") (h2 : mainRun req w = Output.intradayOut r) :
    r.interval = req.interval.getD "1m" := by
  rw [mainRun_intraday h1] at h2
  rcases hf : fetch_intraday_data (req.symbol.getD "None") (req.interval.getD "1m")
      (req.lookback.getD "1d") w with _ | r'
  · rw [hf] at h2
    cases h2
  · rw [hf] at h2
    injection h2 with h2
    subst h2
    rcases fetch_intraday_cases hf with ⟨resp, -, -, -, -, hre⟩ | ⟨-, hre⟩
    · rw [hre]
    · rw [hre]

/-- Claim C8 witness: a fallback-served empty result still reports the
default requested interval `"1m"`. -/
theorem C8_witness :
    (⟨"MSFT", "1m", [], "yfinance"⟩ : IntradayResult).interval = "1m" :=
  C8_interval_echo { rtype := some "intraday", symbol := some "MSFT" } wEmpty _ rfl
    (by decide)
